import Mathlib

/-!
Shallow embedding of the `tracing-opentelemetry-setup` crate
(`src/layer.rs`, `src/builder.rs`, `src/datadog.rs`) and proofs about it.

External collaborator types (the per-kind adapter layers, the SDK providers,
the `time` formatting routine) are abstracted by the answers they give at the
boundary where the embedded code consults them; every piece of control flow
and data manipulation performed by the crate itself is translated directly
from the Rust source.
-/

namespace TracingOtelSetup

/- ===================== src/layer.rs ===================== -/

/-- The three-valued callsite interest of `tracing` (`Interest::never`,
`Interest::sometimes`, `Interest::always`). -/
inductive Interest where
  | never
  | sometimes
  | always
deriving DecidableEq, Fintype, Repr

def Interest.is_never : Interest → Bool
  | .never => true
  | _ => false

def Interest.is_sometimes : Interest → Bool
  | .sometimes => true
  | _ => false

def Interest.is_always : Interest → Bool
  | .always => true
  | _ => false

/-- `fn apply_new_interest` of `src/layer.rs` lines 30-35, translated verbatim. -/
def apply_new_interest (interest new_interest : Interest) : Interest :=
  if (interest.is_sometimes && new_interest.is_always) || (interest.is_never && !new_interest.is_never) then
    new_interest
  else
    interest

/-- `tracing_subscriber::filter::LevelFilter`.  Per `tracing-core`,
`OFF < ERROR < WARN < INFO < DEBUG < TRACE` (OFF is the least element). -/
inductive LevelFilter where
  | off
  | error
  | warn
  | info
  | debug
  | trace
deriving DecidableEq, Fintype, Repr

/-- Position of a level filter in the `tracing-core` ordering (OFF least). -/
def LevelFilter.toNat : LevelFilter → Nat
  | .off => 0
  | .error => 1
  | .warn => 2
  | .info => 3
  | .debug => 4
  | .trace => 5

/-- `core::cmp::min` at type `LevelFilter` (returns the second argument on ties,
as `Ord::min` does). -/
def LevelFilter.min (a b : LevelFilter) : LevelFilter :=
  if a.toNat < b.toNat then a else b

/-- `struct OtlpLayer` of `src/layer.rs`: three optional per-kind adapters.
The type parameter is the answer the corresponding adapter gives to the
query under consideration (adapters are external collaborators). -/
structure OtlpLayer (α : Type) where
  trace : Option α
  logs : Option α
  metrics : Option α
deriving DecidableEq, Repr

/-- The answers of the active adapters, in the order the source consults
them (trace, then logs, then metrics). -/
def OtlpLayer.active {α : Type} (self : OtlpLayer α) : List α :=
  self.trace.toList ++ self.logs.toList ++ self.metrics.toList

/-- `fn register_callsite` of `src/layer.rs` lines 49-65.  The field of each
active adapter is the interest that adapter's own `register_callsite`
reports for the callsite at hand. -/
def OtlpLayer.register_callsite (self : OtlpLayer Interest) : Interest :=
  let interest := Interest.never
  let interest :=
    match self.trace with
    | some new_interest => apply_new_interest interest new_interest
    | none => interest
  let interest :=
    match self.logs with
    | some new_interest => apply_new_interest interest new_interest
    | none => interest
  let interest :=
    match self.metrics with
    | some new_interest => apply_new_interest interest new_interest
    | none => interest
  interest

/-- `fn enabled` of `src/layer.rs` lines 68-81.  Each field is the boolean
that adapter's own `enabled` returns for the metadata at hand. -/
def OtlpLayer.enabled (self : OtlpLayer Bool) : Bool :=
  let is_enabled := true
  let is_enabled :=
    match self.trace with
    | some b => is_enabled && b
    | none => is_enabled
  let is_enabled :=
    match self.logs with
    | some b => is_enabled && b
    | none => is_enabled
  let is_enabled :=
    match self.metrics with
    | some b => is_enabled && b
    | none => is_enabled
  is_enabled

/-- `fn event_enabled` of `src/layer.rs` lines 84-97 (same combination as
`enabled`, consulted per event). -/
def OtlpLayer.event_enabled (self : OtlpLayer Bool) : Bool :=
  let is_enabled := true
  let is_enabled :=
    match self.trace with
    | some b => is_enabled && b
    | none => is_enabled
  let is_enabled :=
    match self.logs with
    | some b => is_enabled && b
    | none => is_enabled
  let is_enabled :=
    match self.metrics with
    | some b => is_enabled && b
    | none => is_enabled
  is_enabled

/-- One step of `fn max_level_hint` (`src/layer.rs` lines 100-116): consult one
adapter slot.  `none` from an active adapter's `max_level_hint()` hits the `?`
operator and aborts the whole function with `None`. -/
def hint_step (slot : Option (Option LevelFilter)) (level : LevelFilter) : Option LevelFilter :=
  match slot with
  | none => some level
  | some hint =>
    match hint with
    | none => none
    | some new_level => some (LevelFilter.min level new_level)

/-- `fn max_level_hint` of `src/layer.rs` lines 100-116: start from
`LevelFilter::OFF`, fold `core::cmp::min` over the adapters' hints,
aborting with `None` on the first adapter that reports no hint. -/
def OtlpLayer.max_level_hint (self : OtlpLayer (Option LevelFilter)) : Option LevelFilter :=
  match hint_step self.trace LevelFilter.off with
  | none => none
  | some level =>
    match hint_step self.logs level with
    | none => none
    | some level => hint_step self.metrics level

/-- Identifies which adapter a fanned-out callback invocation went to. -/
inductive Kind where
  | trace
  | logs
  | metrics
deriving DecidableEq, Repr

/-- `macro_rules! impl_method` of `src/layer.rs` lines 15-28: invoke the
callback on the trace adapter if present, then the logs adapter, then the
metrics adapter, passing the same `fields` to each.  The result records the
invocations performed, in order, with the argument each adapter received. -/
def impl_method {α β : Type} (self : OtlpLayer α) (fields : β) : List (Kind × β) :=
  (match self.trace with
   | some _ => [(Kind.trace, fields)]
   | none => []) ++
  (match self.logs with
   | some _ => [(Kind.logs, fields)]
   | none => []) ++
  (match self.metrics with
   | some _ => [(Kind.metrics, fields)]
   | none => [])

/-- `fn on_new_span` (`src/layer.rs` line 44): expands `impl_method`. -/
def OtlpLayer.on_new_span {α β : Type} (self : OtlpLayer α) (args : β) : List (Kind × β) :=
  impl_method self args

/-- `fn on_record` (`src/layer.rs` line 119): expands `impl_method`. -/
def OtlpLayer.on_record {α β : Type} (self : OtlpLayer α) (args : β) : List (Kind × β) :=
  impl_method self args

/-- `fn on_follows_from` (`src/layer.rs` line 124): expands `impl_method`. -/
def OtlpLayer.on_follows_from {α β : Type} (self : OtlpLayer α) (args : β) : List (Kind × β) :=
  impl_method self args

/-- `fn on_event` (`src/layer.rs` line 129): expands `impl_method`. -/
def OtlpLayer.on_event {α β : Type} (self : OtlpLayer α) (args : β) : List (Kind × β) :=
  impl_method self args

/-- `fn on_enter` (`src/layer.rs` line 134): expands `impl_method`. -/
def OtlpLayer.on_enter {α β : Type} (self : OtlpLayer α) (args : β) : List (Kind × β) :=
  impl_method self args

/-- `fn on_exit` (`src/layer.rs` line 139): expands `impl_method`. -/
def OtlpLayer.on_exit {α β : Type} (self : OtlpLayer α) (args : β) : List (Kind × β) :=
  impl_method self args

/-- `fn on_close` (`src/layer.rs` line 144): expands `impl_method`. -/
def OtlpLayer.on_close {α β : Type} (self : OtlpLayer α) (args : β) : List (Kind × β) :=
  impl_method self args

/-- `fn on_id_change` (`src/layer.rs` line 149): expands `impl_method`. -/
def OtlpLayer.on_id_change {α β : Type} (self : OtlpLayer α) (args : β) : List (Kind × β) :=
  impl_method self args

/- Specification-side definitions for the composite-layer claims. -/

/-- Rank of an interest in the `never < sometimes < always` lattice. -/
def Interest.toNat : Interest → Nat
  | .never => 0
  | .sometimes => 1
  | .always => 2

/-- Join (maximum) in the three-element interest lattice. -/
def Interest.join (a b : Interest) : Interest :=
  if a.toNat ≤ b.toNat then b else a

/-- Join of a list of interests, folded left-to-right from `never`
(the shape of the composite's sequential combination). -/
def joinAll (xs : List Interest) : Interest :=
  List.foldl Interest.join Interest.never xs

/-- The combination of level hints the specification describes: the minimum
taken only over the hints that active adapters actually provided, `none`
when no active adapter provides a hint. -/
def spec_hint_combination (self : OtlpLayer (Option LevelFilter)) : Option LevelFilter :=
  match self.active.filterMap id with
  | [] => none
  | x :: xs => some (List.foldl LevelFilter.min x xs)

/-- The callback dispatch order the specification describes: logs adapter
first, then trace, then metrics. -/
def spec_dispatch_logs_first {α β : Type} (self : OtlpLayer α) (fields : β) : List (Kind × β) :=
  (match self.logs with
   | some _ => [(Kind.logs, fields)]
   | none => []) ++
  (match self.trace with
   | some _ => [(Kind.trace, fields)]
   | none => []) ++
  (match self.metrics with
   | some _ => [(Kind.metrics, fields)]
   | none => [])

/- ===================== src/builder.rs ===================== -/

/-- `struct ShutdownError` of `src/builder.rs` lines 103-110: one optional
error per telemetry kind.  `ε` abstracts `OTelSdkError`. -/
structure ShutdownError (ε : Type) where
  logs : Option ε
  trace : Option ε
  metrics : Option ε
deriving DecidableEq, Repr

/-- `ShutdownError::default()`: all fields `None`. -/
def ShutdownError.default {ε : Type} : ShutdownError ε :=
  { logs := none, trace := none, metrics := none }

/-- `struct Otlp` of `src/builder.rs` lines 159-164: the handle owning the
three optional per-kind providers.  `π` abstracts the provider type. -/
structure Otlp (π : Type) where
  logs : Option π
  trace : Option π
  metrics : Option π
deriving DecidableEq, Repr

/-- `Otlp::new()` (`src/builder.rs` lines 167-175). -/
def Otlp.new {π : Type} : Otlp π :=
  { logs := none, trace := none, metrics := none }

/-- The `limit` normalisation at the top of `Otlp::shutdown`
(`src/builder.rs` lines 186-189): a zero duration becomes 10 seconds.
Durations are modelled in milliseconds. -/
def normalize_limit (limit : Nat) : Nat :=
  if limit = 0 then 10000 else limit

/-- `Otlp::shutdown` of `src/builder.rs` lines 186-220.  Each populated
provider is modelled by the outcome its collaborator
`shutdown_with_timeout(limit)` call returns (`Except.ok ()` on success,
`Except.error e` on failure).  Every populated slot is `take()`n out of the
handle and its shutdown outcome recorded; the function returns the post-state
handle together with the aggregated result. -/
def Otlp.shutdown {ε : Type} (self : Otlp (Except ε Unit)) :
    Otlp (Except ε Unit) × Except (ShutdownError ε) Unit :=
  let is_error := false
  let errors : ShutdownError ε := ShutdownError.default
  let st :=
    match self.logs with
    | some logs =>
      let self := { self with logs := none }
      match logs with
      | Except.error e => (self, true, { errors with logs := some e })
      | Except.ok _ => (self, is_error, errors)
    | none => (self, is_error, errors)
  let st :=
    match st.1.trace with
    | some tr =>
      let self := { st.1 with trace := none }
      match tr with
      | Except.error e => (self, true, { st.2.2 with trace := some e })
      | Except.ok _ => (self, st.2.1, st.2.2)
    | none => st
  let st :=
    match st.1.metrics with
    | some mt =>
      let self := { st.1 with metrics := none }
      match mt with
      | Except.error e => (self, true, { st.2.2 with metrics := some e })
      | Except.ok _ => (self, st.2.1, st.2.2)
    | none => st
  (st.1, if st.2.1 then Except.error st.2.2 else Except.ok ())

/-- `Otlp`'s `Drop` impl (`src/builder.rs` lines 289-294): a shutdown with the
zero (hence defaulted) limit whose result is discarded. -/
def Otlp.drop {ε : Type} (self : Otlp (Except ε Unit)) : Otlp (Except ε Unit) :=
  (Otlp.shutdown self).1

/-- Whether an attempted per-kind shutdown succeeded (an absent provider
imposes nothing). -/
def shutdownOk {ε : Type} (slot : Option (Except ε Unit)) : Bool :=
  match slot with
  | some (Except.error _) => false
  | _ => true

/-- The error a per-kind slot contributes to the aggregated `ShutdownError`
(`none` for an absent provider or a successful shutdown). -/
def failureOf {ε : Type} (slot : Option (Except ε Unit)) : Option ε :=
  match slot with
  | some (Except.error e) => some e
  | _ => none

/-- `struct Builder` of `src/builder.rs` lines 334-340 (the destination field
is kept by the exporter-construction collaborators abstracted away here; `π`
abstracts the constructed providers).  Timeout in milliseconds. -/
structure Builder (π : Type) where
  otlp : Otlp π
  headers : List (String × String)
  timeout : Nat
  compression : Bool
deriving DecidableEq, Repr

/-- `Builder::new` (`src/builder.rs` lines 524-532): empty handle, no headers,
5 second timeout, compression on. -/
def Builder.new {π : Type} : Builder π :=
  { otlp := Otlp.new, headers := [], timeout := 5000, compression := true }

/-- `Builder::with_logs` of `src/builder.rs` lines 564-628.  The double-enable
check panics before anything else happens; the panic is modelled as
`Except.error` with the panic message.  Exporter construction is a
collaborator and is abstracted by the provider value it yields. -/
def Builder.with_logs {π : Type} (self : Builder π) (provider : π) : Except String (Builder π) :=
  if self.otlp.logs.isSome then
    Except.error "Logs is already initialized"
  else
    Except.ok { self with otlp := { self.otlp with logs := some provider } }

/-- `Builder::with_trace` of `src/builder.rs` lines 633-716 (double-enable
check only; the sampler selection it performs is `select_sampler` below). -/
def Builder.with_trace {π : Type} (self : Builder π) (provider : π) : Except String (Builder π) :=
  if self.otlp.trace.isSome then
    Except.error "Trace is already initialized"
  else
    Except.ok { self with otlp := { self.otlp with trace := some provider } }

/-- `Builder::with_metrics` of `src/builder.rs` lines 722-784.  The source's
panic message for this kind reads "Trace is already initialized" (a
copy-paste in the source), kept verbatim. -/
def Builder.with_metrics {π : Type} (self : Builder π) (provider : π) : Except String (Builder π) :=
  if self.otlp.metrics.isSome then
    Except.error "Trace is already initialized"
  else
    Except.ok { self with otlp := { self.otlp with metrics := some provider } }

/-- The sampler configurations `Builder::with_trace` can install
(`src/builder.rs` lines 693-707).  `parentBased r` stands for
`Sampler::ParentBased(Box::new(Sampler::TraceIdRatioBased(r)))`;
`alwaysOff`/`alwaysOn` are the crate's own deterministic samplers. -/
inductive Sampler where
  | parentBased (ratio : ℚ)
  | traceIdRatioBased (ratio : ℚ)
  | alwaysOff
  | alwaysOn
deriving DecidableEq, Repr

/-- `f64::clamp(0.0, 1.0)`, i.e. the clamp of the sample rate to `[0, 1]`.
The `f64` arithmetic involved is pure order comparison against the exactly
representable constants 0 and 1, so rationals model it exactly (for non-NaN
inputs). -/
def clamp01 (x : ℚ) : ℚ :=
  min (max x 0) 1

/-- The sampler selection of `Builder::with_trace` (`src/builder.rs` lines
693-707): clamp the rate, then branch on `respect_parent` and on exact
comparison of the clamped rate with 0.0 and 1.0. -/
def select_sampler (sample_rate : ℚ) (respect_parent : Bool) : Sampler :=
  let sample_rate := clamp01 sample_rate
  if respect_parent then
    Sampler.parentBased sample_rate
  else if sample_rate = 0 then
    Sampler.alwaysOff
  else if sample_rate = 1 then
    Sampler.alwaysOn
  else
    Sampler.traceIdRatioBased sample_rate

/- URL suffixing for the HTTP protocol variants.  Strings are modelled as
lists of characters. -/

/-- Rust's `str::trim_end_matches('/')`: remove every trailing `'/'`
(repeatedly strips the suffix as long as it matches). -/
def trim_end_matches_slash (s : List Char) : List Char :=
  (s.reverse.dropWhile (fun c => c = '/')).reverse

/-- The logs exporter endpoint, `format!("{}/logs", url.trim_end_matches('/'))`
(`src/builder.rs` line 599). -/
def logs_endpoint (url : List Char) : List Char :=
  trim_end_matches_slash url ++ "/logs".data

/-- The trace exporter endpoint (`src/builder.rs` line 672). -/
def traces_endpoint (url : List Char) : List Char :=
  trim_end_matches_slash url ++ "/traces".data

/-- The metrics exporter endpoint (`src/builder.rs` line 756). -/
def metrics_endpoint (url : List Char) : List Char :=
  trim_end_matches_slash url ++ "/metrics".data

/-- The suffixing rule the specification describes: strip a trailing slash
exactly once (at most one `'/'` removed from the end). -/
def spec_strip_one_slash (s : List Char) : List Char :=
  if s.getLast? = some '/' then s.dropLast else s

/- ===================== src/datadog.rs ===================== -/

/-- UTF-8 encoding of one character (the byte sequence Rust strings store),
written with division/remainder arithmetic. -/
def utf8EncodeChar (c : Char) : List Nat :=
  let n := c.toNat
  if n < 0x80 then [n]
  else if n < 0x800 then [0xC0 + n / 64, 0x80 + n % 64]
  else if n < 0x10000 then
    [0xE0 + n / 4096, 0x80 + (n / 64) % 64, 0x80 + n % 64]
  else
    [0xF0 + n / 262144, 0x80 + (n / 4096) % 64, 0x80 + (n / 64) % 64, 0x80 + n % 64]

/-- UTF-8 encoding of a string (as its list of characters). -/
def utf8Encode (s : List Char) : List Nat :=
  (s.map utf8EncodeChar).flatten

/-- Whether a byte is a UTF-8 continuation byte. -/
def isCont (b : Nat) : Bool :=
  0x80 ≤ b && b < 0xC0

/-- One state of UTF-8 decoding: `none` between characters, `some (acc, need)`
inside a multi-byte sequence with `acc` the code-point bits read so far and
`need` continuation bytes still expected. -/
def utf8DecodeGo : Option (Nat × Nat) → List Nat → Option (List Char)
  | none, [] => some []
  | some _, [] => none
  | none, b :: rest =>
    if b < 0x80 then (utf8DecodeGo none rest).map (fun cs => Char.ofNat b :: cs)
    else if b < 0xC0 then none
    else if b < 0xE0 then utf8DecodeGo (some (b - 0xC0, 1)) rest
    else if b < 0xF0 then utf8DecodeGo (some (b - 0xE0, 2)) rest
    else if b < 0xF8 then utf8DecodeGo (some (b - 0xF0, 3)) rest
    else none
  | some (acc, need), b :: rest =>
    if isCont b then
      if need = 1 then
        (utf8DecodeGo none rest).map (fun cs => Char.ofNat (acc * 64 + (b - 0x80)) :: cs)
      else
        utf8DecodeGo (some (acc * 64 + (b - 0x80), need - 1)) rest
    else none

/-- `core::str::from_utf8(..).ok()`: decode a byte sequence, `none` on
malformed input.  (The byte sequences this development decodes are prefixes of
valid UTF-8 produced by `utf8Encode`, on which this decoder and Rust's
validator agree; overlong/surrogate rejection never triggers on them.) -/
def utf8Decode (bytes : List Nat) : Option (List Char) :=
  utf8DecodeGo none bytes

/-- `struct Buffer` of `src/datadog.rs` lines 48-88: a 1024-byte array plus a
length.  `data` is the written prefix (`inner[..len]`); its length never
exceeds 1024. -/
structure Buffer where
  data : List Nat
deriving DecidableEq, Repr

/-- `Buffer::new()`. -/
def Buffer.new : Buffer :=
  { data := [] }

/-- `Buffer::push_bytes` (`src/datadog.rs` lines 81-87).  `written` is the
minimum of the remaining capacity and `buf.len()`, but the copy is
`output[..written].copy_from_slice(buf)`, and `copy_from_slice` panics
whenever the two lengths differ — that is, whenever `buf` does not fit in
the remaining capacity.  The panic is modelled as `none`. -/
def Buffer.push_bytes (self : Buffer) (buf : List Nat) : Option (Buffer × Nat) :=
  let written := min (1024 - self.data.length) buf.length
  if written = buf.length then
    some ({ data := self.data ++ buf.take written }, written)
  else
    none

/-- `Buffer::clear`. -/
def Buffer.clear (_self : Buffer) : Buffer :=
  { data := [] }

/-- `Buffer::as_str`: UTF-8 decode the written prefix. -/
def Buffer.as_str (self : Buffer) : Option (List Char) :=
  utf8Decode self.data

/-- `Buffer::as_str_with` (`src/datadog.rs` lines 62-69): run the callback,
return the buffer contents as a string if it reported success, clear the
buffer and return the inner `none` otherwise.  A panic inside the callback
(outer `none`) propagates. -/
def Buffer.as_str_with (self : Buffer) (cb : Buffer → Option (Buffer × Bool)) :
    Option (Buffer × Option (List Char)) :=
  (cb self).map (fun r => if r.2 then (r.1, r.1.as_str) else (r.1.clear, none))

/-- `io::Write::write_all` against `Buffer`: `Buffer::write` is `push_bytes`,
which either writes all of `bytes` or panics, so `write_all` never observes
a short write — it succeeds exactly when `push_bytes` does not panic. -/
def Buffer.write_all (self : Buffer) (bytes : List Nat) : Option (Buffer × Bool) :=
  (self.push_bytes bytes).map (fun r => (r.1, r.2 == bytes.length))

/-- The JSON documents `serde_json` writes for this exporter. -/
inductive Json where
  | bool (b : Bool)
  | num (i : Int)
  | str (s : List Char)
  | arr (xs : List Json)
  | obj (entries : List (List Char × Json))

def lbrace : Char := Char.ofNat 0x7B

def rbrace : Char := Char.ofNat 0x7D

/-- Lower-case hexadecimal digit. -/
def hexDigit (n : Nat) : Char :=
  if n < 10 then Char.ofNat (48 + n) else Char.ofNat (87 + n)

/-- `serde_json`'s string escaping: `"` and `\` are backslash-escaped, control
characters use the short escapes `\b \t \n \f \r` or `\u00XX`, everything else
is emitted as is. -/
def escapeChar (c : Char) : List Char :=
  if c = '"' then ['\\', '"']
  else if c = '\\' then ['\\', '\\']
  else if c.toNat < 0x20 then
    if c.toNat = 0x08 then ['\\', 'b']
    else if c.toNat = 0x09 then ['\\', 't']
    else if c.toNat = 0x0A then ['\\', 'n']
    else if c.toNat = 0x0C then ['\\', 'f']
    else if c.toNat = 0x0D then ['\\', 'r']
    else ['\\', 'u', '0', '0', hexDigit (c.toNat / 16), hexDigit (c.toNat % 16)]
  else [c]

/-- Render a JSON string literal (compact `serde_json` form). -/
def renderStr (s : List Char) : List Char :=
  '"' :: (s.map escapeChar).flatten ++ ['"']

/-- Render an integer in decimal. -/
def renderInt (i : Int) : List Char :=
  if i < 0 then '-' :: Nat.toDigits 10 i.natAbs else Nat.toDigits 10 i.toNat

/-- Comma-separate rendered fragments. -/
def commaJoin : List (List Char) → List Char
  | [] => []
  | [x] => x
  | x :: xs => x ++ ',' :: commaJoin xs

mutual

/-- Compact rendering of a JSON document, as `serde_json::to_writer` emits it. -/
def Json.render : Json → List Char
  | .bool true => "true".data
  | .bool false => "false".data
  | .num i => renderInt i
  | .str s => renderStr s
  | .arr xs => '[' :: commaJoin (Json.renderList xs) ++ [']']
  | .obj kvs => lbrace :: commaJoin (Json.renderEntries kvs) ++ [rbrace]

def Json.renderList : List Json → List (List Char)
  | [] => []
  | x :: xs => Json.render x :: Json.renderList xs

def Json.renderEntries : List (List Char × Json) → List (List Char)
  | [] => []
  | (k, v) :: xs => (renderStr k ++ ':' :: Json.render v) :: Json.renderEntries xs

end

/-- `opentelemetry::logs::AnyValue` as far as this exporter serializes it
(`AnyValueSerde`, `src/datadog.rs` lines 10-46).  The `Double` payload is
floating point and stays outside the model; the catch-all "unsupported
value" serialization error concerns only shapes absent from this type. -/
inductive AnyValue where
  | boolean (b : Bool)
  | int (i : Int)
  | str (s : List Char)
  | bytes (bs : List Nat)
  | listAny (xs : List AnyValue)
  | map (kvs : List (List Char × AnyValue))

mutual

/-- `AnyValueSerde`'s serialization of a value (`src/datadog.rs` lines 12-46):
booleans, integers and strings map to the corresponding JSON forms, bytes to
an array of numbers, lists and maps recursively. -/
def AnyValue.toJson : AnyValue → Json
  | .boolean b => Json.bool b
  | .int i => Json.num i
  | .str s => Json.str s
  | .bytes bs => Json.arr (bs.map (fun b => Json.num (Int.ofNat b)))
  | .listAny xs => Json.arr (AnyValue.listToJson xs)
  | .map kvs => Json.obj (AnyValue.entriesToJson kvs)

def AnyValue.listToJson : List AnyValue → List Json
  | [] => []
  | x :: xs => AnyValue.toJson x :: AnyValue.listToJson xs

def AnyValue.entriesToJson : List (List Char × AnyValue) → List (List Char × Json)
  | [] => []
  | (k, v) :: xs => (k, AnyValue.toJson v) :: AnyValue.entriesToJson xs

end

/-- The trace context attached to a log record.  `trace_id` is the value of
the 128-bit id (`u128::from_be_bytes(ctx.trace_id.to_bytes())` reproduces
exactly this value), `span_id` the 64-bit one. -/
structure TraceContext where
  trace_id : Nat
  span_id : Nat
deriving DecidableEq, Repr

/-- The fields of `opentelemetry_sdk::logs::SdkLogRecord` this exporter
reads.  Timestamps are opaque instants (`Nat`); their RFC3339 rendering is
the `time` crate's business and is abstracted by the `fmt` argument of
`LogRecord.serialize`. -/
structure SdkLogRecord where
  body : Option AnyValue
  timestamp : Option Nat
  observed_timestamp : Option Nat
  severity_text : Option (List Char)
  trace_context : Option TraceContext
  attributes : List (List Char × AnyValue)

/-- `Option::or_else`. -/
def or_else {α : Type} (a b : Option α) : Option α :=
  match a with
  | some x => some x
  | none => b

/-- One iteration of the attribute loop of `LogRecord::serialize`
(`src/datadog.rs` lines 133-143): build `"fields." + key` inside the shared
buffer (each push may panic), emit the entry if the buffer holds valid
UTF-8, clear the buffer. -/
def attr_step (acc : Buffer × List (List Char × Json)) (kv : List Char × AnyValue) :
    Option (Buffer × List (List Char × Json)) :=
  let buffer := acc.1
  (buffer.as_str_with (fun b =>
      (b.push_bytes (utf8Encode "fields.".data)).bind (fun r1 =>
        (r1.1.push_bytes (utf8Encode kv.1)).map (fun r2 => (r2.1, true))))).map
    (fun r =>
      let entries :=
        match r.2 with
        | some key => acc.2 ++ [(key, AnyValue.toJson kv.2)]
        | none => acc.2
      (r.1.clear, entries))

/-- `LogRecord::serialize` of `src/datadog.rs` lines 105-146.  `fmt` abstracts
the `time` crate's RFC3339 formatter (`none` = formatting error); its output
is written into the record's 1024-byte scratch buffer.  A `push_bytes` panic
anywhere (over-long formatted timestamp or attribute key) is the outer
`none`. -/
def LogRecord.serialize (fmt : Nat → Option (List Nat)) (r : SdkLogRecord) :
    Option (List (List Char × Json)) :=
  let buffer := Buffer.new
  let entries : List (List Char × Json) :=
    match r.body with
    | some message => [("message".data, AnyValue.toJson message)]
    | none => []
  let st :=
    match or_else r.timestamp r.observed_timestamp with
    | some timestamp =>
      (buffer.as_str_with (fun b =>
        match fmt timestamp with
        | some bytes => b.write_all bytes
        | none => some (b, false))).map (fun (w : Buffer × Option (List Char)) =>
          (w.1.clear,
            match w.2 with
            | some s => entries ++ [("timestamp".data, Json.str s)]
            | none => entries))
    | none => some (buffer, entries)
  st.bind (fun st =>
    let entries2 :=
      match r.severity_text with
      | some severity_text => st.2 ++ [("level".data, Json.str severity_text)]
      | none => st.2
    let entries3 :=
      match r.trace_context with
      | some ctx =>
        entries2 ++ [("dd.trace_id".data, Json.num (Int.ofNat ctx.trace_id)),
                     ("dd.span_id".data, Json.num (Int.ofNat ctx.span_id))]
      | none => entries2
    (r.attributes.foldlM attr_step (st.1, entries3)).map
      (fun (fin : Buffer × List (List Char × Json)) => fin.2))

/-- `OTelSdkError` as far as `IoLogExporter::export` produces it. -/
inductive OTelSdkError where
  | alreadyShutdown
  | internalFailure (msg : List Char)
deriving DecidableEq, Repr

/-- The bytes `serde_json::to_writer` emits for one record (`none` when
serialization panics). -/
def renderRecord (fmt : Nat → Option (List Nat)) (r : SdkLogRecord) : Option (List Char) :=
  (LogRecord.serialize fmt r).map (fun entries => Json.render (Json.obj entries))

/-- The export loop of `IoLogExporter::export` (`src/datadog.rs` lines
174-179): write each record's JSON document, one directly after the other;
a serialization panic propagates. -/
def exportLoop (fmt : Nat → Option (List Nat)) : List SdkLogRecord → Option (List Char)
  | [] => some []
  | r :: rest =>
    (renderRecord fmt r).bind (fun s => (exportLoop fmt rest).map (fun t => s ++ t))

/-- `IoLogExporter::export` of `src/datadog.rs` lines 165-182: refuse when
already shut down, fail when the destination cannot be created, otherwise
write every record of the batch; a panic while serializing a record is the
outer `none`.  (Serialization errors concern only value shapes outside
`AnyValue` above.) -/
def IoLogExporter.exportBatch (fmt : Nat → Option (List Nat)) (is_shutdown : Bool)
    (create_dest : Except (List Char) Unit) (batch : List SdkLogRecord) :
    Option (Except OTelSdkError (List Char)) :=
  if is_shutdown then
    some (Except.error OTelSdkError.alreadyShutdown)
  else
    match create_dest with
    | Except.error e => some (Except.error (OTelSdkError.internalFailure e))
    | Except.ok _ => (exportLoop fmt batch).map Except.ok

/-- The output shape the specification describes: one JSON object per line,
records separated by newline characters. -/
def spec_newline_separated (rendered : List (List Char)) : List Char :=
  List.intercalate ['\n'] rendered

/- Concrete instances used by counterexamples and witnesses. -/

/-- A formatter that always fails (timestamps are irrelevant to the records
it is used with). -/
def fmt_unavailable : Nat → Option (List Nat) :=
  fun _ => none

/-- A formatter producing (the UTF-8 bytes of) a fixed RFC3339 string. -/
def fmt_fixed : Nat → Option (List Nat) :=
  fun _ => some (utf8Encode "2026-01-01T00:00:00Z".data)

/-- A record carrying only a severity text. -/
def rec_level_info : SdkLogRecord :=
  { body := none, timestamp := none, observed_timestamp := none,
    severity_text := some "INFO".data, trace_context := none, attributes := [] }

/-- The JSON document `rec_level_info` serializes to. -/
def obj_level_info : List Char :=
  lbrace :: "\"level\":\"INFO\"".data ++ [rbrace]

/-- The record of the repository's own round-trip test: body "my message",
severity INFO, a timestamp, a trace context and one attribute `data = 1`. -/
def rec_sample : SdkLogRecord :=
  { body := some (AnyValue.str "my message".data), timestamp := some 5,
    observed_timestamp := none, severity_text := some "INFO".data,
    trace_context := some { trace_id := 12, span_id := 7 },
    attributes := [("data".data, AnyValue.int 1)] }

/-- The timestamp string a record's serialization carries when the buffer
write does not panic: the formatter's bytes, UTF-8 decoded (`none` when
formatting fails or its output is not valid UTF-8). -/
def ts_rendered (fmt : Nat → Option (List Nat)) (ts : Nat) : Option (List Char) :=
  (fmt ts).bind utf8Decode

/-- Whether serializing the record's timestamp avoids the `push_bytes` panic:
the formatted bytes fit the 1024-byte buffer (vacuously true when there is no
timestamp or formatting fails before writing). -/
def ts_fits (fmt : Nat → Option (List Nat)) (r : SdkLogRecord) : Bool :=
  match or_else r.timestamp r.observed_timestamp with
  | some t =>
    match fmt t with
    | some bytes => decide (bytes.length ≤ 1024)
    | none => true
  | none => true

/-- Whether every attribute key fits the key buffer next to the 7-byte
`"fields."` prefix; an over-long key makes `push_bytes` panic. -/
def attrs_fit (r : SdkLogRecord) : Bool :=
  r.attributes.all (fun kv => decide ((utf8Encode kv.1).length ≤ 1017))

/-- The reserved entries of a serialized record, in emission order:
`message` (if a body is present), `timestamp` (from the record's timestamp
or, failing that, its observed timestamp), `level` (if severity text is
set), and the two Datadog correlation ids (if a trace context is
attached). -/
def reserved_entries (fmt : Nat → Option (List Nat)) (r : SdkLogRecord) :
    List (List Char × Json) :=
  (match r.body with
   | some message => [("message".data, AnyValue.toJson message)]
   | none => []) ++
  (match (or_else r.timestamp r.observed_timestamp).bind (ts_rendered fmt) with
   | some s => [("timestamp".data, Json.str s)]
   | none => []) ++
  (match r.severity_text with
   | some sev => [("level".data, Json.str sev)]
   | none => []) ++
  (match r.trace_context with
   | some ctx => [("dd.trace_id".data, Json.num (Int.ofNat ctx.trace_id)),
                  ("dd.span_id".data, Json.num (Int.ofNat ctx.span_id))]
   | none => [])

/-- The entries `rec_sample` serializes to. -/
def rec_sample_entries : List (List Char × Json) :=
  [("message".data, Json.str "my message".data),
   ("timestamp".data, Json.str "2026-01-01T00:00:00Z".data),
   ("level".data, Json.str "INFO".data),
   ("dd.trace_id".data, Json.num 12),
   ("dd.span_id".data, Json.num 7),
   ("fields.data".data, Json.num 1)]

/-- A builder whose logs slot is already populated (the result of
`Builder.new.with_logs 3` at provider type `Nat`). -/
def builder_logs3 : Builder Nat :=
  { otlp := { logs := some 3, trace := none, metrics := none },
    headers := [], timeout := 5000, compression := true }

/- ===================== helper lemmas ===================== -/

theorem apply_eq_join : ∀ i n, apply_new_interest i n = Interest.join i n := by
  decide

theorem join_never_left : ∀ a, Interest.join Interest.never a = a := by
  decide

theorem join_never_right : ∀ a, Interest.join a Interest.never = a := by
  decide

theorem join_assoc : ∀ a b c,
    Interest.join (Interest.join a b) c = Interest.join a (Interest.join b c) := by
  decide

theorem join_left_comm : ∀ a b c,
    Interest.join a (Interest.join b c) = Interest.join b (Interest.join a c) := by
  decide

theorem join_is_max : ∀ a b, (Interest.join a b).toNat = Nat.max a.toNat b.toNat := by
  decide

theorem foldl_join_eq_foldr (zs : List Interest) : ∀ a,
    List.foldl Interest.join a zs = Interest.join a (List.foldr Interest.join Interest.never zs) := by
  induction zs with
  | nil => intro a; simp [join_never_right]
  | cons z zs ih => intro a; simp [List.foldl, List.foldr, ih, join_assoc]

theorem foldr_join_perm {xs ys : List Interest} (h : xs.Perm ys) :
    List.foldr Interest.join Interest.never xs = List.foldr Interest.join Interest.never ys := by
  induction h with
  | nil => rfl
  | cons x _ ih => simp [List.foldr, ih]
  | swap x y l => simp [List.foldr, join_left_comm]
  | trans _ _ ih1 ih2 => rw [ih1, ih2]

theorem min_off : ∀ x, LevelFilter.min LevelFilter.off x = LevelFilter.off := by
  decide

/- ===================== claim theorems ===================== -/

/-- C2: for every subset of active adapters and every assignment of
per-adapter interest answers, the composite's `register_callsite` is the
join (maximum under `never < sometimes < always`) of the active adapters'
answers, `never` with zero active adapters; each `apply_new_interest` step
is the lattice join, so the fold is order-independent. -/
theorem register_callsite_lattice (self : OtlpLayer Interest) :
    (∀ i n, apply_new_interest i n = Interest.join i n) ∧
    (∀ a b, (Interest.join a b).toNat = Nat.max a.toNat b.toNat) ∧
    self.register_callsite = joinAll self.active ∧
    (OtlpLayer.mk none none none : OtlpLayer Interest).register_callsite = Interest.never ∧
    (∀ xs ys : List Interest, xs.Perm ys → joinAll xs = joinAll ys) := by
  refine ⟨apply_eq_join, join_is_max, ?_, by decide, ?_⟩
  · obtain ⟨t, l, m⟩ := self
    rcases t with _ | t <;> rcases l with _ | l <;> rcases m with _ | m <;>
      simp [OtlpLayer.register_callsite, joinAll, OtlpLayer.active, apply_eq_join,
        join_never_left]
  · intro xs ys h
    simp only [joinAll, foldl_join_eq_foldr, foldr_join_perm h]

/-- C2 witness: the theorem applied to a concrete layer and a concrete
permutation of interest answers. -/
theorem register_callsite_lattice_witness :
    joinAll [Interest.sometimes, Interest.always] = joinAll [Interest.always, Interest.sometimes] :=
  (register_callsite_lattice (OtlpLayer.mk none none none)).2.2.2.2
    [Interest.sometimes, Interest.always] [Interest.always, Interest.sometimes]
    (List.Perm.swap Interest.always Interest.sometimes [])

/-- C5: the composite's `enabled` and `event_enabled` are true exactly when
every active adapter answers true (an absent adapter imposes no constraint);
with zero active adapters both are true. -/
theorem enabled_and_semantics (self : OtlpLayer Bool) :
    (self.enabled = true ↔ ∀ b ∈ self.active, b = true) ∧
    (self.event_enabled = true ↔ ∀ b ∈ self.active, b = true) ∧
    (OtlpLayer.mk none none none : OtlpLayer Bool).enabled = true ∧
    (OtlpLayer.mk none none none : OtlpLayer Bool).event_enabled = true := by
  obtain ⟨t, l, m⟩ := self
  rcases t with _ | t <;> rcases l with _ | l <;> rcases m with _ | m <;>
    simp [OtlpLayer.enabled, OtlpLayer.event_enabled, OtlpLayer.active, and_assoc]

/-- C1 counterexample: with one active adapter hinting ERROR the composite
reports OFF, not the minimum-over-reporting-adapters ERROR; and with zero
active adapters it reports `some OFF`, not `none`. -/
theorem max_level_hint_claim_false :
    (OtlpLayer.mk (some (some LevelFilter.error)) none none).max_level_hint =
      some LevelFilter.off ∧
    spec_hint_combination (OtlpLayer.mk (some (some LevelFilter.error)) none none) =
      some LevelFilter.error ∧
    some LevelFilter.off ≠ some LevelFilter.error ∧
    (OtlpLayer.mk none none none : OtlpLayer (Option LevelFilter)).max_level_hint =
      some LevelFilter.off ∧
    spec_hint_combination (OtlpLayer.mk none none none : OtlpLayer (Option LevelFilter)) =
      none := by
  decide

/-- C1 (amended): the composite's `max_level_hint` returns `none` as soon as
any active adapter reports no hint; otherwise it returns `some` of the fold
of `min` started at `LevelFilter::OFF`, which — OFF being the least level
filter — is always `some OFF` (also with zero active adapters). -/
theorem max_level_hint_code (self : OtlpLayer (Option LevelFilter)) :
    self.max_level_hint =
      if self.active.any (fun h => h.isNone) then none else some LevelFilter.off := by
  obtain ⟨t, l, m⟩ := self
  rcases t with _ | (_ | t) <;> rcases l with _ | (_ | l) <;> rcases m with _ | (_ | m) <;>
    simp [OtlpLayer.max_level_hint, hint_step, OtlpLayer.active, min_off]

/-- C4 counterexample: with the trace and logs adapters active, the composite
invokes the trace adapter first and the logs adapter second — not logs first
as claimed. -/
theorem callback_order_claim_false :
    impl_method (OtlpLayer.mk (some ()) (some ()) none) 0 =
      [(Kind.trace, 0), (Kind.logs, 0)] ∧
    spec_dispatch_logs_first (OtlpLayer.mk (some ()) (some ()) none) 0 =
      [(Kind.logs, 0), (Kind.trace, 0)] ∧
    ([(Kind.trace, 0), (Kind.logs, 0)] : List (Kind × Nat)) ≠
      [(Kind.logs, 0), (Kind.trace, 0)] := by
  decide

/-- C4 (amended): every lifecycle callback fans out through `impl_method`,
which invokes each active adapter exactly once with the same arguments,
never short-circuiting, in the fixed deterministic order trace adapter
first, then logs, then metrics. -/
theorem callback_fanout {α β : Type} (self : OtlpLayer α) (args : β) :
    impl_method self args =
      ((if self.trace.isSome then [Kind.trace] else []) ++
       (if self.logs.isSome then [Kind.logs] else []) ++
       (if self.metrics.isSome then [Kind.metrics] else [])).map (fun k => (k, args)) ∧
    self.on_new_span args = impl_method self args ∧
    self.on_record args = impl_method self args ∧
    self.on_follows_from args = impl_method self args ∧
    self.on_event args = impl_method self args ∧
    self.on_enter args = impl_method self args ∧
    self.on_exit args = impl_method self args ∧
    self.on_close args = impl_method self args ∧
    self.on_id_change args = impl_method self args := by
  refine ⟨?_, rfl, rfl, rfl, rfl, rfl, rfl, rfl, rfl⟩
  obtain ⟨t, l, m⟩ := self
  rcases t with _ | t <;> rcases l with _ | l <;> rcases m with _ | m <;> rfl

/-- C3: `Otlp::shutdown` attempts every populated provider even when an
earlier kind failed; it returns `Ok(())` exactly when every attempted
per-kind shutdown succeeded; on failure the `ShutdownError` carries exactly
the failed kinds' errors (kinds that succeeded or were absent stay `None`);
an empty handle shuts down successfully. -/
theorem shutdown_error_aggregation {ε : Type} (self : Otlp (Except ε Unit)) :
    ((Otlp.shutdown self).2 = Except.ok () ↔
      shutdownOk self.logs = true ∧ shutdownOk self.trace = true ∧
        shutdownOk self.metrics = true) ∧
    (¬ (shutdownOk self.logs = true ∧ shutdownOk self.trace = true ∧
        shutdownOk self.metrics = true) →
      (Otlp.shutdown self).2 =
        Except.error { logs := failureOf self.logs, trace := failureOf self.trace,
                       metrics := failureOf self.metrics }) ∧
    (self.logs = none → self.trace = none → self.metrics = none →
      (Otlp.shutdown self).2 = Except.ok ()) := by
  obtain ⟨l, t, m⟩ := self
  rcases l with _ | (el | _) <;> rcases t with _ | (et | _) <;> rcases m with _ | (em | _) <;>
    simp [Otlp.shutdown, shutdownOk, failureOf, ShutdownError.default]

/-- C3 witness: a handle whose logs shutdown fails while trace succeeds
yields the aggregated error naming exactly the logs failure. -/
theorem shutdown_error_aggregation_witness :
    (Otlp.shutdown (⟨some (Except.error 7), some (Except.ok ()), none⟩ :
        Otlp (Except Nat Unit))).2 =
      Except.error { logs := some 7, trace := none, metrics := none } :=
  (shutdown_error_aggregation
      (⟨some (Except.error 7), some (Except.ok ()), none⟩ : Otlp (Except Nat Unit))).2.1
    (by decide)

/-- C10: after `Otlp::shutdown` returns — success or failure — all three
provider slots of the handle are `None`, so a second shutdown (also the one
the `Drop` impl performs) touches no provider and returns `Ok(())`. -/
theorem shutdown_clears_handle {ε : Type} (self : Otlp (Except ε Unit)) :
    (Otlp.shutdown self).1.logs = none ∧
    (Otlp.shutdown self).1.trace = none ∧
    (Otlp.shutdown self).1.metrics = none ∧
    Otlp.shutdown (Otlp.shutdown self).1 = ((Otlp.shutdown self).1, Except.ok ()) ∧
    Otlp.drop (Otlp.shutdown self).1 = (Otlp.shutdown self).1 := by
  obtain ⟨l, t, m⟩ := self
  rcases l with _ | (el | _) <;> rcases t with _ | (et | _) <;> rcases m with _ | (em | _) <;>
    simp [Otlp.shutdown, Otlp.drop, ShutdownError.default]

/-- C6: enabling a kind whose provider slot is already populated fails
fatally regardless of kind or settings, and a successful enable starts from
an empty slot and fills it, so each slot is set at most once. -/
theorem enable_kind_at_most_once {π : Type} (b : Builder π) (p q : π) :
    (b.otlp.logs.isSome = true →
      Builder.with_logs b p = Except.error "Logs is already initialized") ∧
    (∀ b2, Builder.with_logs b p = Except.ok b2 →
      b.otlp.logs = none ∧ b2.otlp.logs = some p ∧
        Builder.with_logs b2 q = Except.error "Logs is already initialized") ∧
    (b.otlp.trace.isSome = true →
      Builder.with_trace b p = Except.error "Trace is already initialized") ∧
    (∀ b2, Builder.with_trace b p = Except.ok b2 →
      b.otlp.trace = none ∧ b2.otlp.trace = some p ∧
        Builder.with_trace b2 q = Except.error "Trace is already initialized") ∧
    (b.otlp.metrics.isSome = true →
      Builder.with_metrics b p = Except.error "Trace is already initialized") ∧
    (∀ b2, Builder.with_metrics b p = Except.ok b2 →
      b.otlp.metrics = none ∧ b2.otlp.metrics = some p ∧
        Builder.with_metrics b2 q = Except.error "Trace is already initialized") := by
  refine ⟨?_, ?_, ?_, ?_, ?_, ?_⟩
  · intro h
    simp [Builder.with_logs, h]
  · intro b2 h
    by_cases hl : b.otlp.logs.isSome
    · simp [Builder.with_logs, hl] at h
    · simp [Builder.with_logs, hl] at h
      subst h
      refine ⟨Option.not_isSome_iff_eq_none.mp hl, by simp, ?_⟩
      simp [Builder.with_logs]
  · intro h
    simp [Builder.with_trace, h]
  · intro b2 h
    by_cases hl : b.otlp.trace.isSome
    · simp [Builder.with_trace, hl] at h
    · simp [Builder.with_trace, hl] at h
      subst h
      refine ⟨Option.not_isSome_iff_eq_none.mp hl, by simp, ?_⟩
      simp [Builder.with_trace]
  · intro h
    simp [Builder.with_metrics, h]
  · intro b2 h
    by_cases hl : b.otlp.metrics.isSome
    · simp [Builder.with_metrics, hl] at h
    · simp [Builder.with_metrics, hl] at h
      subst h
      refine ⟨Option.not_isSome_iff_eq_none.mp hl, by simp, ?_⟩
      simp [Builder.with_metrics]

/-- C6 witness: enabling logs on a fresh builder succeeds; enabling logs a
second time fails with the double-initialization panic. -/
theorem enable_kind_at_most_once_witness :
    Builder.with_logs builder_logs3 4 = Except.error "Logs is already initialized" :=
  ((enable_kind_at_most_once (Builder.new : Builder Nat) 3 4).2.1 builder_logs3 rfl).2.2

theorem clamp01_nonneg (r : ℚ) : 0 ≤ clamp01 r :=
  le_min (le_max_right r 0) zero_le_one

theorem clamp01_le_one (r : ℚ) : clamp01 r ≤ 1 :=
  min_le_right _ _

theorem clamp01_eq_self {r : ℚ} (h0 : 0 ≤ r) (h1 : r ≤ 1) : clamp01 r = r := by
  unfold clamp01
  rw [max_eq_left h0, min_eq_left h1]

theorem clamp01_idem (r : ℚ) : clamp01 (clamp01 r) = clamp01 r :=
  clamp01_eq_self (clamp01_nonneg r) (clamp01_le_one r)

theorem clamp01_high : clamp01 (3 / 2) = 1 := by
  unfold clamp01
  rw [max_eq_left (by norm_num : (0 : ℚ) ≤ 3 / 2), min_eq_right (by norm_num : (1 : ℚ) ≤ 3 / 2)]

theorem clamp01_low : clamp01 (-(1 / 5)) = 0 := by
  unfold clamp01
  rw [max_eq_right (by norm_num : (-(1 / 5) : ℚ) ≤ 0), min_eq_left (by norm_num : (0 : ℚ) ≤ 1)]

/-- C7: `with_trace` clamps the sample rate to `[0, 1]` first (1.5 behaves as
1.0, -0.2 as 0.0); with `respect_parent` it installs the parent-based wrapper
around the ratio sampler at the clamped rate; otherwise exact 0 gives the
always-off sampler, exact 1 the always-on sampler, anything else the
unconditional ratio sampler. -/
theorem sampler_selection (r : ℚ) (p : Bool) :
    select_sampler r p = select_sampler (clamp01 r) p ∧
    select_sampler (3 / 2) p = select_sampler 1 p ∧
    select_sampler (-(1 / 5)) p = select_sampler 0 p ∧
    select_sampler r true = Sampler.parentBased (clamp01 r) ∧
    (clamp01 r = 0 → select_sampler r false = Sampler.alwaysOff) ∧
    (clamp01 r = 1 → select_sampler r false = Sampler.alwaysOn) ∧
    (clamp01 r ≠ 0 → clamp01 r ≠ 1 →
      select_sampler r false = Sampler.traceIdRatioBased (clamp01 r)) := by
  have hc : ∀ x : ℚ, ∀ q : Bool, select_sampler x q = select_sampler (clamp01 x) q := by
    intro x q
    simp only [select_sampler, clamp01_idem]
  refine ⟨hc r p, ?_, ?_, by simp [select_sampler], ?_, ?_, ?_⟩
  · rw [hc (3 / 2) p, hc 1 p, clamp01_high, clamp01_eq_self zero_le_one le_rfl]
  · rw [hc (-(1 / 5)) p, hc 0 p, clamp01_low, clamp01_eq_self le_rfl zero_le_one]
  · intro h
    simp [select_sampler, h]
  · intro h
    simp [select_sampler, h]
  · intro h0 h1
    simp [select_sampler, h0, h1]

/-- C7 witness: the theorem applied at rate 1/2 without parent respect picks
the unconditional ratio sampler. -/
theorem sampler_selection_witness :
    select_sampler (1 / 2) false = Sampler.traceIdRatioBased (clamp01 (1 / 2)) :=
  (sampler_selection (1 / 2) false).2.2.2.2.2.2
    (by rw [clamp01_eq_self (by norm_num) (by norm_num)]; norm_num)
    (by rw [clamp01_eq_self (by norm_num) (by norm_num)]; norm_num)

/-- C8 counterexample: against the base URL `http://host:1234//` the code
strips both trailing slashes, while stripping exactly once would leave one
of them in place; the two endpoints differ. -/
theorem url_suffix_claim_false :
    logs_endpoint "http://host:1234//".data = "http://host:1234/logs".data ∧
    spec_strip_one_slash "http://host:1234//".data ++ "/logs".data =
      "http://host:1234//logs".data ∧
    "http://host:1234/logs".data ≠ "http://host:1234//logs".data := by
  decide

theorem trim_append_slash (url : List Char) :
    trim_end_matches_slash (url ++ ['/']) = trim_end_matches_slash url := by
  simp [trim_end_matches_slash]

/-- C8 (amended): the HTTP exporter endpoints are the base URL with all
trailing slashes removed followed by the kind suffix — appending a trailing
slash to the base never changes any endpoint — and the base
`http://host:1234/` yields exactly the three claimed endpoints. -/
theorem url_suffixing (url : List Char) :
    (logs_endpoint (url ++ ['/']) = logs_endpoint url ∧
     traces_endpoint (url ++ ['/']) = traces_endpoint url ∧
     metrics_endpoint (url ++ ['/']) = metrics_endpoint url) ∧
    (logs_endpoint "http://host:1234/".data = "http://host:1234/logs".data ∧
     traces_endpoint "http://host:1234/".data = "http://host:1234/traces".data ∧
     metrics_endpoint "http://host:1234/".data = "http://host:1234/metrics".data) := by
  refine ⟨⟨?_, ?_, ?_⟩, by decide⟩ <;>
    simp [logs_endpoint, traces_endpoint, metrics_endpoint, trim_append_slash]

theorem char_toNat_lt (c : Char) : c.toNat < 1114112 := by
  rcases c.valid with h | h
  · exact Nat.lt_trans h (by norm_num)
  · exact h.2

theorem utf8Decode_encodeChar (c : Char) (rest : List Nat) :
    utf8DecodeGo none (utf8EncodeChar c ++ rest) =
      (utf8DecodeGo none rest).map (fun cs => c :: cs) := by
  have hv : c.toNat < 1114112 := char_toNat_lt c
  by_cases h1 : c.toNat < 0x80
  · simp only [utf8EncodeChar, h1, if_true, List.cons_append, List.nil_append]
    simp [utf8DecodeGo, h1]
  · by_cases h2 : c.toNat < 0x800
    · simp only [utf8EncodeChar, h1, h2, if_false, if_true, List.cons_append, List.nil_append]
      have hb0a : ¬ (0xC0 + c.toNat / 64 < 0x80) := by omega
      have hb0b : ¬ (0xC0 + c.toNat / 64 < 0xC0) := by omega
      have hb0c : (0xC0 + c.toNat / 64 < 0xE0) := by omega
      have hcont : isCont (0x80 + c.toNat % 64) = true := by simp [isCont]; omega
      have hval : c.toNat / 64 * 64 + c.toNat % 64 = c.toNat := by omega
      simp [utf8DecodeGo, hb0a, hb0b, hb0c, hcont, hval]
    · by_cases h3 : c.toNat < 0x10000
      · simp only [utf8EncodeChar, h1, h2, h3, if_false, if_true, List.cons_append,
          List.nil_append]
        have hb0a : ¬ (0xE0 + c.toNat / 4096 < 0x80) := by omega
        have hb0b : ¬ (0xE0 + c.toNat / 4096 < 0xC0) := by omega
        have hb0c : ¬ (0xE0 + c.toNat / 4096 < 0xE0) := by omega
        have hb0d : (0xE0 + c.toNat / 4096 < 0xF0) := by omega
        have hcont1 : isCont (0x80 + c.toNat / 64 % 64) = true := by simp [isCont]; omega
        have hcont2 : isCont (0x80 + c.toNat % 64) = true := by simp [isCont]; omega
        have hval : c.toNat / 4096 * 64 + c.toNat / 64 % 64 = c.toNat / 64 := by omega
        have hval2 : c.toNat / 64 * 64 + c.toNat % 64 = c.toNat := by omega
        simp [utf8DecodeGo, hb0a, hb0b, hb0c, hb0d, hcont1, hcont2, hval, hval2]
      · simp only [utf8EncodeChar, h1, h2, h3, if_false, if_true, List.cons_append,
          List.nil_append]
        have hb0a : ¬ (0xF0 + c.toNat / 262144 < 0x80) := by omega
        have hb0b : ¬ (0xF0 + c.toNat / 262144 < 0xC0) := by omega
        have hb0c : ¬ (0xF0 + c.toNat / 262144 < 0xE0) := by omega
        have hb0d : ¬ (0xF0 + c.toNat / 262144 < 0xF0) := by omega
        have hb0e : (0xF0 + c.toNat / 262144 < 0xF8) := by omega
        have hcont1 : isCont (0x80 + c.toNat / 4096 % 64) = true := by simp [isCont]; omega
        have hcont2 : isCont (0x80 + c.toNat / 64 % 64) = true := by simp [isCont]; omega
        have hcont3 : isCont (0x80 + c.toNat % 64) = true := by simp [isCont]; omega
        have hval : c.toNat / 262144 * 64 + c.toNat / 4096 % 64 = c.toNat / 4096 := by omega
        have hval2 : c.toNat / 4096 * 64 + c.toNat / 64 % 64 = c.toNat / 64 := by omega
        have hval3 : c.toNat / 64 * 64 + c.toNat % 64 = c.toNat := by omega
        simp [utf8DecodeGo, hb0a, hb0b, hb0c, hb0d, hb0e, hcont1, hcont2, hcont3,
          hval, hval2, hval3]

theorem utf8Decode_encode_append (s : List Char) (rest : List Nat) :
    utf8Decode (utf8Encode s ++ rest) = (utf8Decode rest).map (fun cs => s ++ cs) := by
  induction s with
  | nil =>
    simp only [utf8Encode, List.map_nil, List.flatten_nil, List.nil_append, utf8Decode]
    cases utf8DecodeGo none rest <;> simp
  | cons c s ih =>
    have he : utf8Encode (c :: s) = utf8EncodeChar c ++ utf8Encode s := by
      simp [utf8Encode]
    rw [utf8Decode] at ih ⊢
    rw [he, List.append_assoc, utf8Decode_encodeChar, ih, Option.map_map]
    rfl

theorem utf8Decode_encode (s : List Char) : utf8Decode (utf8Encode s) = some s := by
  have h := utf8Decode_encode_append s []
  rw [List.append_nil] at h
  rw [h]
  simp [utf8Decode, utf8DecodeGo]

theorem utf8Encode_append (a b : List Char) :
    utf8Encode (a ++ b) = utf8Encode a ++ utf8Encode b := by
  simp [utf8Encode]

theorem ts_block (fmt : Nat → Option (List Nat)) (t : Nat) :
    Buffer.as_str_with (Buffer.mk []) (fun b =>
      match fmt t with
      | some bytes => b.write_all bytes
      | none => some (b, false)) =
    match fmt t with
    | some bytes =>
      if bytes.length ≤ 1024 then some (Buffer.mk bytes, utf8Decode bytes) else none
    | none => some (Buffer.mk [], none) := by
  rcases hft : fmt t with _ | bytes
  · simp [Buffer.as_str_with, Buffer.clear]
  · simp only [Buffer.as_str_with, Buffer.write_all, Buffer.push_bytes]
    by_cases h : bytes.length ≤ 1024
    · rw [if_pos h]
      have hmin : min (1024 - List.length ([] : List Nat)) bytes.length = bytes.length := by
        simp
        omega
      rw [hmin]
      simp [Buffer.as_str, List.take_length]
    · rw [if_neg h]
      have hmin : min (1024 - List.length ([] : List Nat)) bytes.length = 1024 := by
        simp
        omega
      rw [hmin]
      have hne : ¬ (1024 = bytes.length) := by omega
      simp [hne]

theorem attr_step_empty (entries : List (List Char × Json)) (kv : List Char × AnyValue) :
    attr_step (Buffer.mk [], entries) kv =
      if (utf8Encode kv.1).length ≤ 1017 then
        some (Buffer.mk [], entries ++ [("fields.".data ++ kv.1, AnyValue.toJson kv.2)])
      else none := by
  have hf : utf8Encode "fields.".data = [102, 105, 101, 108, 100, 115, 46] := by decide
  have hkey : utf8Decode (102 :: 105 :: 101 :: 108 :: 100 :: 115 :: 46 :: utf8Encode kv.1) =
      some ('f' :: 'i' :: 'e' :: 'l' :: 'd' :: 's' :: '.' :: kv.1) := by
    have h1 := utf8Decode_encode ("fields.".data ++ kv.1)
    rw [utf8Encode_append] at h1
    exact h1
  simp only [attr_step, Buffer.as_str_with, Buffer.push_bytes, Buffer.as_str, Buffer.clear, hf]
  norm_num
  by_cases h : (utf8Encode kv.1).length ≤ 1017
  · have htake : List.take (min 1017 (utf8Encode kv.1).length) (utf8Encode kv.1) =
        utf8Encode kv.1 := by
      rw [min_eq_right h, List.take_length]
    simp [h, htake, hkey]
  · simp [h]

theorem attr_fold (attrs : List (List Char × AnyValue)) :
    ∀ entries, attrs.foldlM attr_step (Buffer.mk [], entries) =
      if attrs.all (fun kv => decide ((utf8Encode kv.1).length ≤ 1017)) then
        some (Buffer.mk [], entries ++
          attrs.map (fun kv => ("fields.".data ++ kv.1, AnyValue.toJson kv.2)))
      else none := by
  induction attrs with
  | nil =>
    intro entries
    simp [List.foldlM]
  | cons kv attrs ih =>
    intro entries
    rw [List.foldlM_cons, attr_step_empty]
    by_cases h : (utf8Encode kv.1).length ≤ 1017
    · rw [if_pos h]
      simp only [Option.bind_eq_bind, Option.some_bind]
      rw [ih, List.all_cons]
      have hdec : decide ((utf8Encode kv.1).length ≤ 1017) = true := by
        simp [h]
      rw [hdec, Bool.true_and]
      by_cases ha : attrs.all (fun kv => decide ((utf8Encode kv.1).length ≤ 1017))
      · rw [if_pos ha, if_pos ha]
        simp [List.append_assoc]
      · rw [if_neg ha, if_neg ha]
    · rw [if_neg h, List.all_cons]
      have hdec : decide ((utf8Encode kv.1).length ≤ 1017) = false := by
        simp [h]
      rw [hdec, Bool.false_and, if_neg (by simp : ¬ (false = true))]
      rfl

theorem ts_stage (fmt : Nat → Option (List Nat)) (t : Nat)
    (entries : List (List Char × Json)) :
    ((Buffer.mk []).as_str_with (fun b =>
        match fmt t with
        | some bytes => b.write_all bytes
        | none => some (b, false))).map
      (fun (w : Buffer × Option (List Char)) =>
        (w.1.clear,
          match w.2 with
          | some s => entries ++ [("timestamp".data, Json.str s)]
          | none => entries)) =
    if (match fmt t with
        | some bytes => decide (bytes.length ≤ 1024)
        | none => true) then
      some (Buffer.mk [],
        match (fmt t).bind utf8Decode with
        | some s => entries ++ [("timestamp".data, Json.str s)]
        | none => entries)
    else none := by
  rw [ts_block]
  rcases hft : fmt t with _ | bytes
  · simp [Buffer.clear]
  · by_cases hlen : bytes.length ≤ 1024
    · simp [hlen, Buffer.clear]
    · simp [hlen]

theorem serialize_eq (fmt : Nat → Option (List Nat)) (r : SdkLogRecord) :
    LogRecord.serialize fmt r =
      if ts_fits fmt r && attrs_fit r then
        some (reserved_entries fmt r ++
          r.attributes.map (fun kv => ("fields.".data ++ kv.1, AnyValue.toJson kv.2)))
      else none := by
  obtain ⟨body, ts, ots, sev, ctx, attrs⟩ := r
  simp only [LogRecord.serialize, reserved_entries, ts_fits, attrs_fit, ts_rendered]
  rcases h : or_else ts ots with _ | t
  · simp only [Option.some_bind, Buffer.new]
    rw [attr_fold]
    rcases body with _ | m <;> rcases sev with _ | sv <;> rcases ctx with _ | c <;>
      by_cases haf : attrs.all (fun kv => decide ((utf8Encode kv.1).length ≤ 1017)) <;>
        simp [haf, List.append_assoc]
  · simp only [Buffer.new]
    rw [ts_stage]
    by_cases hts : (match fmt t with
        | some bytes => decide (bytes.length ≤ 1024)
        | none => true) = true
    · rw [if_pos hts]
      simp only [Option.some_bind]
      rw [attr_fold]
      rcases hd : (fmt t).bind utf8Decode with _ | sr <;>
        rcases body with _ | m <;> rcases sev with _ | sv <;> rcases ctx with _ | c <;>
          by_cases haf : attrs.all (fun kv => decide ((utf8Encode kv.1).length ≤ 1017)) <;>
            simp [hts, haf, hd, List.append_assoc]
    · rw [if_neg hts]
      simp only [Bool.not_eq_true] at hts
      simp [hts]

theorem lookup_append {α β : Type} [BEq α] (l1 l2 : List (α × β)) (k : α) :
    List.lookup k (l1 ++ l2) = or_else (List.lookup k l1) (List.lookup k l2) := by
  induction l1 with
  | nil => simp [or_else, List.lookup]
  | cons kv l1 ih =>
    obtain ⟨a, b⟩ := kv
    by_cases h : k == a
    · simp [List.lookup, h, or_else]
    · simp only [Bool.not_eq_true] at h
      simp [List.lookup, h, ih]

theorem lookup_attr_none (attrs : List (List Char × AnyValue)) (k : List Char)
    (hk : ∀ tail, k ≠ 'f' :: tail) :
    List.lookup k
      (attrs.map (fun kv => ("fields.".data ++ kv.1, AnyValue.toJson kv.2))) = none := by
  induction attrs with
  | nil => simp [List.lookup]
  | cons kv attrs ih =>
    have hne : (k == "fields.".data ++ kv.1) = false := by
      rw [beq_eq_false_iff_ne]
      intro hcontra
      exact hk ("ields.".data ++ kv.1) (by rw [hcontra]; rfl)
    simp only [List.map_cons, List.lookup, hne]
    exact ih

theorem not_f_key (k : List Char) (hk : k.head? ≠ some 'f') : ∀ tail, k ≠ 'f' :: tail := by
  intro tail h
  apply hk
  rw [h]
  rfl

theorem or_else_none_right {α : Type} (a : Option α) : or_else a none = a := by
  cases a <;> rfl

theorem lookup_serialize_reserved (fmt : Nat → Option (List Nat)) (r : SdkLogRecord)
    (entries : List (List Char × Json)) (hser : LogRecord.serialize fmt r = some entries) :
    List.lookup "message".data entries = r.body.map AnyValue.toJson ∧
    List.lookup "timestamp".data entries =
      ((or_else r.timestamp r.observed_timestamp).bind (ts_rendered fmt)).map Json.str ∧
    List.lookup "level".data entries = r.severity_text.map Json.str ∧
    List.lookup "dd.trace_id".data entries =
      r.trace_context.map (fun c => Json.num (Int.ofNat c.trace_id)) ∧
    List.lookup "dd.span_id".data entries =
      r.trace_context.map (fun c => Json.num (Int.ofNat c.span_id)) := by
  rw [serialize_eq] at hser
  by_cases hfit : ts_fits fmt r && attrs_fit r
  · rw [if_pos hfit] at hser
    injection hser with hser
    subst hser
    obtain ⟨body, ts, ots, sev, ctx, attrs⟩ := r
    refine ⟨?_, ?_, ?_, ?_, ?_⟩ <;>
      rw [lookup_append, lookup_attr_none attrs _ (not_f_key _ (by decide)),
        or_else_none_right] <;>
      simp only [reserved_entries] <;>
      rcases hts : (or_else ts ots).bind (ts_rendered fmt) with _ | sr <;>
        rcases body with _ | message <;>
          rcases sev with _ | sv <;>
            rcases ctx with _ | c <;>
              simp [lookup_append, List.lookup, or_else]
  · rw [if_neg hfit] at hser
    cases hser

theorem exportLoop_eq_flatten (fmt : Nat → Option (List Nat)) (batch : List SdkLogRecord) :
    exportLoop fmt batch = (batch.mapM (renderRecord fmt)).map List.flatten := by
  induction batch with
  | nil => rfl
  | cons r rest ih =>
    rw [exportLoop, ih, List.mapM_cons]
    cases renderRecord fmt r with
    | none => simp
    | some doc =>
      cases rest.mapM (renderRecord fmt) <;> simp

/-- C9 (amended): an accepted batch is written as the back-to-back
concatenation of the records' JSON objects with no separator between them
(not one per line); within each accepted record's object, `message` is the
body (omitted if absent), `timestamp` is the formatted string of the
record's timestamp or, failing that, its observed timestamp, `level` is the
severity text (omitted when unset), `dd.trace_id`/`dd.span_id` are the
128-bit and 64-bit integers of the attached trace context (only when one is
attached), and every user attribute appears under exactly the key
`fields.<attribute-name>`.  (A record whose formatted timestamp or prefixed
attribute key overflows the 1024-byte buffer makes the exporter panic —
`copy_from_slice` length mismatch — modelled as `none`: such a batch is
never accepted.) -/
theorem export_record_format (fmt : Nat → Option (List Nat)) (r : SdkLogRecord)
    (batch : List SdkLogRecord) :
    IoLogExporter.exportBatch fmt false (Except.ok ()) batch =
      (batch.mapM (renderRecord fmt)).map (fun rs => Except.ok rs.flatten) ∧
    (∀ entries, LogRecord.serialize fmt r = some entries →
      List.lookup "message".data entries = r.body.map AnyValue.toJson ∧
      List.lookup "timestamp".data entries =
        ((or_else r.timestamp r.observed_timestamp).bind (ts_rendered fmt)).map Json.str ∧
      List.lookup "level".data entries = r.severity_text.map Json.str ∧
      List.lookup "dd.trace_id".data entries =
        r.trace_context.map (fun c => Json.num (Int.ofNat c.trace_id)) ∧
      List.lookup "dd.span_id".data entries =
        r.trace_context.map (fun c => Json.num (Int.ofNat c.span_id)) ∧
      ∀ kv ∈ r.attributes, ("fields.".data ++ kv.1, AnyValue.toJson kv.2) ∈ entries) := by
  refine ⟨?_, ?_⟩
  · rw [IoLogExporter.exportBatch, exportLoop_eq_flatten]
    simp [Option.map_map]
    rfl
  · intro entries hser
    obtain ⟨hm, hts, hl, h1, h2⟩ := lookup_serialize_reserved fmt r entries hser
    refine ⟨hm, hts, hl, h1, h2, ?_⟩
    intro kv hkv
    rw [serialize_eq] at hser
    by_cases hfit : ts_fits fmt r && attrs_fit r
    · rw [if_pos hfit] at hser
      injection hser with hser
      subst hser
      exact List.mem_append_right _ (List.mem_map_of_mem _ hkv)
    · rw [if_neg hfit] at hser
      cases hser

/-- C9 counterexample: two records are exported back-to-back with no newline
(nor any other separator) between their JSON objects — not one JSON object
per line as claimed. -/
theorem export_format_claim_false :
    renderRecord fmt_unavailable rec_level_info = some obj_level_info ∧
    IoLogExporter.exportBatch fmt_unavailable false (Except.ok ())
        [rec_level_info, rec_level_info] =
      some (Except.ok (obj_level_info ++ obj_level_info)) ∧
    spec_newline_separated [obj_level_info, obj_level_info] =
      obj_level_info ++ '\n' :: obj_level_info ∧
    obj_level_info ++ obj_level_info ≠ obj_level_info ++ '\n' :: obj_level_info := by
  refine ⟨rfl, rfl, rfl, by decide⟩

/-- C9 witness: the amended theorem applied to the repository's round-trip
test record: its serialization is accepted, the message entry is present,
and the `data = 1` attribute is emitted under `fields.data`. -/
theorem export_record_format_witness :
    List.lookup "message".data rec_sample_entries = some (Json.str "my message".data) ∧
    ("fields.".data ++ "data".data, Json.num 1) ∈ rec_sample_entries := by
  have h := (export_record_format fmt_fixed rec_sample []).2 rec_sample_entries (by rfl)
  refine ⟨?_, ?_⟩
  · rw [h.1]
    rfl
  · exact h.2.2.2.2.2 ("data".data, AnyValue.int 1) (List.mem_singleton.mpr rfl)

end TracingOtelSetup
